import Mathlib

/-!
Verification development for the response-parsing core of the
AI-Research-Engine repository (`src/utils/response_parser.py`).

The Python module is shallowly embedded below.  Python strings are
`List Char` (positions are character indices, as in Python's `re`);
regular expressions are embedded as a small abstract syntax `RE`
together with a leftmost, backtracking matcher `runFrom` that mirrors
CPython's `re` backtracking order.  Every pattern in the source has
the shape `PRE ( .*? | .+? ) LOOKAHEAD-OR-DOLLAR`, with all starred or
plus-quantified subexpressions being single character classes, so the
embedding restricts quantifiers to character classes (`RE.star`,
`RE.plus`) and models the single lazy capture group of each pattern
separately (`Pat`), which keeps the matcher total and structural.
-/

namespace ResponseParserModel

set_option maxRecDepth 8192

/-! ### Python string primitives -/

/-- Python `str.strip()` whitespace set (ASCII part): space, \t, \n, \r, \x0b, \x0c.
Also the set matched by the regex class `\s` for ASCII input. -/
def isPySpace (c : Char) : Bool :=
  c == ' ' || c == '\t' || c == '\n' || c == '\r' || c == '\x0b' || c == '\x0c'

/-- Python `str.strip()`: drop leading and trailing whitespace. -/
def pyStrip (l : List Char) : List Char :=
  ((l.dropWhile isPySpace).reverse.dropWhile isPySpace).reverse

/-- Python `text.split('\n')` (keeps empty pieces, as Python does). -/
def splitNlGo (cur : List Char) : List Char → List (List Char)
  | [] => [cur.reverse]
  | c :: rest => if c == '\n' then cur.reverse :: splitNlGo [] rest else splitNlGo (c :: cur) rest

def splitNl (t : List Char) : List (List Char) := splitNlGo [] t

/-! ### Regex engine

`RE` covers exactly the constructs used by `response_parser.py`:
literals (with the `re.IGNORECASE` flag), single-character classes,
greedy star/plus over a character class, concatenation, alternation,
greedy option `(?:...)?`, and the `^` / `$` anchors (with or without
`re.MULTILINE`).  `runFrom re t i k` tries the alternatives of `re` at
position `i` of `t` in CPython's backtracking order and calls the
continuation `k` with the end position of each candidate match until
`k` succeeds; the returned value is the first success. -/

inductive RE where
  | eps : RE
  | lit : List Char → Bool → RE
  | one : (Char → Bool) → RE
  | star : (Char → Bool) → RE
  | plus : (Char → Bool) → RE
  | seq : RE → RE → RE
  | alt : RE → RE → RE
  | opt : RE → RE
  | bol : Bool → RE
  | eol : Bool → RE

/-- Case-insensitive character comparison when `ci` (the `re.IGNORECASE` flag) is set. -/
def charEq (ci : Bool) (a b : Char) : Bool :=
  if ci then a.toLower == b.toLower else a == b

/-- Match a literal at position `i`; returns the end position. -/
def litAt (ci : Bool) : List Char → List Char → Nat → Option Nat
  | [], _, i => some i
  | c :: s, t, i =>
    match t.get? i with
    | some d => if charEq ci c d then litAt ci s t (i+1) else none
    | none => none

/-- Length of the maximal run of characters satisfying `cl`. -/
def classRunL (cl : Char → Bool) : List Char → Nat
  | [] => 0
  | c :: rest => if cl c then classRunL cl rest + 1 else 0

/-- Greedy star backtracking: try consuming `n` class characters first, then fewer. -/
def tryDesc (k : Nat → Option (Nat × Nat)) (i : Nat) : Nat → Option (Nat × Nat)
  | 0 => k i
  | n + 1 =>
    match k (i + n + 1) with
    | some r => some r
    | none => tryDesc k i n

/-- Greedy plus backtracking: like `tryDesc` but at least one character. -/
def tryDescP (k : Nat → Option (Nat × Nat)) (i : Nat) : Nat → Option (Nat × Nat)
  | 0 => none
  | n + 1 =>
    match k (i + n + 1) with
    | some r => some r
    | none => tryDescP k i n

/-- `$` test: without `re.MULTILINE` it holds at end of text or just before a final
newline; with `re.MULTILINE` also before any newline. -/
def eolAt (ml : Bool) (t : List Char) (i : Nat) : Bool :=
  if ml then i == t.length || t.get? i == some '\n'
  else i == t.length || (i + 1 == t.length && t.get? i == some '\n')

/-- `^` test: position 0, or (with `re.MULTILINE`) just after a newline. -/
def bolAt (ml : Bool) (t : List Char) (i : Nat) : Bool :=
  i == 0 || (ml && t.get? (i - 1) == some '\n')

/-- The backtracking matcher (see the section header for the contract). -/
def runFrom : RE → List Char → Nat → (Nat → Option (Nat × Nat)) → Option (Nat × Nat)
  | .eps, _, i, k => k i
  | .lit s ci, t, i, k =>
    match litAt ci s t i with
    | some j => k j
    | none => none
  | .one cl, t, i, k =>
    match t.get? i with
    | some c => if cl c then k (i+1) else none
    | none => none
  | .star cl, t, i, k => tryDesc k i (classRunL cl (t.drop i))
  | .plus cl, t, i, k => tryDescP k i (classRunL cl (t.drop i))
  | .seq a b, t, i, k => runFrom a t i (fun j => runFrom b t j k)
  | .alt a b, t, i, k =>
    match runFrom a t i k with
    | some r => some r
    | none => runFrom b t i k
  | .opt a, t, i, k =>
    match runFrom a t i k with
    | some r => some r
    | none => k i
  | .bol ml, t, i, k => if bolAt ml t i then k i else none
  | .eol ml, t, i, k => if eolAt ml t i then k i else none

/-- One source pattern: a pre-regex, then the single lazy capture group
(`(.+?)` when `capPlus`, else `(.*?)`; `dotNL` is the `re.DOTALL` flag),
then a zero-width post condition (the inner regex of the final
lookahead, or `$`).  Every regex literal in `response_parser.py` has
this shape. -/
structure Pat where
  pre : RE
  capPlus : Bool
  dotNL : Bool
  post : RE

/-- The character class of the capture group's `.` under `dotNL`. -/
def capClassOf (p : Pat) : Char → Bool := fun c => p.dotNL || c != '\n'

/-- Zero-width test: the post regex matches starting at `i`. -/
def postOk (post : RE) (t : List Char) (i : Nat) : Bool :=
  (runFrom post t i (fun j => some (j, j))).isSome

/-- Lazy capture: extend the capture one `.`-class character at a time,
stopping at the first position where the post condition holds. -/
def lazyCap (post : RE) (cl : Char → Bool) (t : List Char) : Nat → Nat → Option Nat
  | k, fuel =>
    if postOk post t k then some k
    else
      match fuel with
      | 0 => none
      | fuel' + 1 =>
        match t.get? k with
        | some c => if cl c then lazyCap post cl t (k+1) fuel' else none
        | none => none

/-- Match capture-plus-post starting at capture start `j`; returns the capture end. -/
def capMatch (p : Pat) (t : List Char) (j : Nat) : Option Nat :=
  if p.capPlus then
    match t.get? j with
    | some c => if capClassOf p c then lazyCap p.post (capClassOf p) t (j+1) t.length else none
    | none => none
  else lazyCap p.post (capClassOf p) t j t.length

/-- Try the whole pattern anchored at position `i`; returns (capture start, capture end).
The pre-regex backtracks when the capture/post part fails, as in CPython. -/
def matchPatAt (p : Pat) (t : List Char) (i : Nat) : Option (Nat × Nat) :=
  runFrom p.pre t i (fun j =>
    match capMatch p t j with
    | some k => some (j, k)
    | none => none)

def searchGo (p : Pat) (t : List Char) : Nat → Nat → Option (Nat × Nat)
  | _, 0 => none
  | i, fuel + 1 =>
    match matchPatAt p t i with
    | some jk => some jk
    | none => searchGo p t (i+1) fuel

/-- `re.search` from position `i`: leftmost match wins. -/
def searchFrom (p : Pat) (t : List Char) (i : Nat) : Option (Nat × Nat) :=
  searchGo p t i (t.length + 1 - i)

/-- `re.search`. -/
def searchPat (p : Pat) (t : List Char) : Option (Nat × Nat) := searchFrom p t 0

/-- Python slice `t[j:k]`. -/
def slice (t : List Char) (j k : Nat) : List Char := (t.take k).drop j

def findallGo (p : Pat) (t : List Char) : Nat → Nat → List (List Char)
  | _, 0 => []
  | i, fuel + 1 =>
    match searchFrom p t i with
    | some jk => slice t jk.1 jk.2 :: findallGo p t (max jk.2 (i+1)) fuel
    | none => []

/-- `re.findall` for a single-group pattern: the list of captures of successive
non-overlapping matches (scanning resumes at each match end, which for these
patterns is the capture end since the post condition is zero-width). -/
def findall (p : Pat) (t : List Char) : List (List Char) := findallGo p t 0 (t.length + 1)

/-! ### `_clean_response` (response_parser.py lines 81-87)

`re.sub(r'\n\s*\n', '\n\n', response)` followed by `.strip()`.  The sub
pattern is a newline, a greedy whitespace run, then a newline; greedy
backtracking picks the longest whitespace run whose following character
is a newline.  Each replacement emits two newlines and scanning resumes
after the match. -/

/-- Backtrack the greedy `\s*` of `\n\s*\n` from run length `r` down to 0;
returns the end position of the whole match. -/
def nnDesc (t : List Char) (i : Nat) : Nat → Option Nat
  | 0 => if t.get? (i+1) == some '\n' then some (i+2) else none
  | m + 1 => if t.get? (i+2+m) == some '\n' then some (i+3+m) else nnDesc t i m

/-- End position of a `\n\s*\n` match starting at `i`, if any. -/
def nnMatchEnd (t : List Char) (i : Nat) : Option Nat :=
  if t.get? i == some '\n' then nnDesc t i (classRunL isPySpace (t.drop (i+1)))
  else none

def subNNGo (t : List Char) : Nat → Nat → List Char
  | i, 0 => t.drop i
  | i, fuel + 1 =>
    match nnMatchEnd t i with
    | some e => '\n' :: '\n' :: subNNGo t e fuel
    | none =>
      match t.get? i with
      | some c => c :: subNNGo t (i+1) fuel
      | none => []

/-- `re.sub(r'\n\s*\n', '\n\n', t)`. -/
def subNN (t : List Char) : List Char := subNNGo t 0 (t.length + 1)

/-- `_clean_response` (lines 81-87). -/
def clean_response (t : List Char) : List Char := pyStrip (subNN t)

/-! ### The pattern tables (response_parser.py lines 14-46, 105-127, 133-139) -/

/-- Class `[:\n]`. -/
def colNlCl (c : Char) : Bool := c == ':' || c == '\n'

/-- Class `\d`. -/
def digitCl (c : Char) : Bool := c.isDigit

/-- Class `[-]`. -/
def hyCl (c : Char) : Bool := c == '-'

/-- Class `[A-Z\s]` under `re.IGNORECASE` (a letter of either case, or whitespace). -/
def upperWsCl (c : Char) : Bool := c.isAlpha || isPySpace c

/-- Case-insensitive literal (all section patterns carry `re.IGNORECASE`). -/
def litCI (s : String) : RE := .lit s.data true

/-- Case-sensitive literal (the list patterns carry no `re.IGNORECASE`). -/
def litCS (s : String) : RE := .lit s.data false

/-- `(?:X\s*)?` — the optional enumeration/markup in front of a header. -/
def optNum (s : String) : RE := .opt (.seq (litCI s) (.star isPySpace))

/-- `HEADER[:\n]*`. -/
def hdrColNl (s : String) : RE := .seq (litCI s) (.star colNlCl)

/-- A section pattern: `re.DOTALL | re.IGNORECASE`, capture group `(.*?)`. -/
def secPat (pre post : RE) : Pat := ⟨pre, false, true, post⟩

/-- Lookahead body `\n(?:A|B|$)`. -/
def nlAlt3 (a b : String) : RE :=
  .seq (litCI "\n") (.alt (litCI a) (.alt (litCI b) (.eol false)))

/-- Lookahead body `\n(?:A|$)`. -/
def nlAlt2 (a : String) : RE := .seq (litCI "\n") (.alt (litCI a) (.eol false))

/-- Lookahead body `\n##|$`. -/
def nlHash : RE := .alt (litCI "\n##") (.eol false)

/-- The `'summary'` entry of `self.section_patterns` (lines 16-20). -/
def summary_patterns : List Pat :=
  [secPat (.seq (optNum "1.") (hdrColNl "EXECUTIVE SUMMARY")) (nlAlt3 "2." "MARKET ANALYSIS"),
   secPat (.seq (optNum "##") (hdrColNl "EXECUTIVE SUMMARY")) nlHash,
   secPat (hdrColNl "SUMMARY") (nlAlt3 "MARKET" "ANALYSIS")]

/-- The `'market_analysis'` entry (lines 21-25). -/
def market_analysis_patterns : List Pat :=
  [secPat (.seq (optNum "2.") (hdrColNl "MARKET ANALYSIS")) (nlAlt3 "3." "TECHNICAL DETAILS"),
   secPat (.seq (optNum "##") (hdrColNl "MARKET ANALYSIS")) nlHash,
   secPat (hdrColNl "MARKET") (nlAlt3 "TECHNICAL" "DETAILS")]

/-- The `'technical_details'` entry (lines 26-30). -/
def technical_details_patterns : List Pat :=
  [secPat (.seq (optNum "3.") (hdrColNl "TECHNICAL DETAILS")) (nlAlt3 "4." "BUSINESS OPPORTUNITIES"),
   secPat (.seq (optNum "##") (hdrColNl "TECHNICAL DETAILS")) nlHash,
   secPat (hdrColNl "TECHNICAL") (nlAlt3 "BUSINESS" "OPPORTUNITIES")]

/-- The `'business_opportunities'` entry (lines 31-35). -/
def business_opportunities_patterns : List Pat :=
  [secPat (.seq (optNum "4.") (hdrColNl "BUSINESS OPPORTUNITIES")) (nlAlt3 "5." "KEY PLAYERS"),
   secPat (.seq (optNum "##") (hdrColNl "BUSINESS OPPORTUNITIES")) nlHash,
   secPat (hdrColNl "BUSINESS") (nlAlt3 "KEY" "PLAYERS")]

/-- The `'key_players'` entry (lines 36-40). -/
def key_players_patterns : List Pat :=
  [secPat (.seq (optNum "5.") (hdrColNl "KEY PLAYERS")) (nlAlt3 "6." "TRENDS"),
   secPat (.seq (optNum "##") (hdrColNl "KEY PLAYERS")) nlHash,
   secPat (hdrColNl "KEY PLAYERS") (nlAlt2 "TRENDS")]

/-- The `'trends'` entry (lines 41-45). -/
def trends_patterns : List Pat :=
  [secPat (.seq (optNum "6.") (hdrColNl "TRENDS")) nlHash,
   secPat (.seq (optNum "##") (hdrColNl "TRENDS")) nlHash,
   secPat (hdrColNl "TRENDS") (.eol false)]

/-- `self.section_patterns` (lines 15-46), in source order. -/
def section_patterns : List (String × List Pat) :=
  [("summary", summary_patterns),
   ("market_analysis", market_analysis_patterns),
   ("technical_details", technical_details_patterns),
   ("business_opportunities", business_opportunities_patterns),
   ("key_players", key_players_patterns),
   ("trends", trends_patterns)]

/-- The `headers` table of `_extract_by_header` (lines 107-114). -/
def header_aliases : List (String × List String) :=
  [("summary", ["EXECUTIVE SUMMARY", "SUMMARY"]),
   ("market_analysis", ["MARKET ANALYSIS", "MARKET"]),
   ("technical_details", ["TECHNICAL DETAILS", "TECHNICAL"]),
   ("business_opportunities", ["BUSINESS OPPORTUNITIES", "BUSINESS"]),
   ("key_players", ["KEY PLAYERS", "PLAYERS"]),
   ("trends", ["TRENDS"])]

/-- `headers.get(section_name, [])`. -/
def headersFor (name : String) : List String :=
  match header_aliases.find? (fun p => p.1 == name) with
  | some p => p.2
  | none => []

/-- `rf'{header}[:\n]*(.*?)(?=\n(?:[A-Z\s]+:|$))'` with `re.DOTALL | re.IGNORECASE` (line 120). -/
def headerPat (h : String) : Pat :=
  secPat (hdrColNl h) (.seq (litCI "\n") (.alt (.seq (.plus upperWsCl) (litCI ":")) (.eol false)))

/-- The four `patterns` of `_extract_list_items` (lines 134-139), `re.MULTILINE`, no
`re.DOTALL` (so `.` excludes newline) and no `re.IGNORECASE`. -/
def list_patterns : List Pat :=
  [⟨.seq (.one hyCl) (.star isPySpace), true, false,
    .alt (litCS "\n-") (.alt (litCS "\n\n") (.eol true))⟩,
   ⟨.seq (.plus digitCl) (.seq (litCS ".") (.star isPySpace)), true, false,
    .alt (.seq (litCS "\n") (.seq (.plus digitCl) (litCS "."))) (.alt (litCS "\n\n") (.eol true))⟩,
   ⟨.seq (.bol true) (.seq (.star isPySpace) (.seq (.one hyCl) (.star isPySpace))), true, false,
    .eol true⟩,
   ⟨.seq (.bol true) (.seq (.star isPySpace) (.seq (.plus digitCl) (.seq (litCS ".") (.star isPySpace)))),
    true, false, .eol true⟩]

/-! ### `_extract_section` and `_extract_by_header` (lines 89-127) -/

/-- The loop of `_extract_by_header` (lines 118-127): first header alias whose
match has stripped content of more than 10 characters wins; otherwise `""`. -/
def extract_by_header_go (t : List Char) : List String → List Char
  | [] => []
  | h :: hs =>
    match searchPat (headerPat h) t with
    | some jk =>
      if pyStrip (slice t jk.1 jk.2) ≠ [] ∧ 10 < (pyStrip (slice t jk.1 jk.2)).length
      then pyStrip (slice t jk.1 jk.2)
      else extract_by_header_go t hs
    | none => extract_by_header_go t hs

/-- `_extract_by_header` (lines 105-127). -/
def extract_by_header (t : List Char) (name : String) : List Char :=
  extract_by_header_go t (headersFor name)

/-- `_extract_section` (lines 89-103): try each pattern in order, accept the first
whose stripped capture is non-empty and longer than 10 characters, else fall back
to `_extract_by_header`.  (The `try/except` around `re.search` cannot fire for
these static, valid patterns, so no error case is modelled.) -/
def extract_section_go (t : List Char) (name : String) : List Pat → List Char
  | [] => extract_by_header t name
  | p :: ps =>
    match searchPat p t with
    | some jk =>
      if pyStrip (slice t jk.1 jk.2) ≠ [] ∧ 10 < (pyStrip (slice t jk.1 jk.2)).length
      then pyStrip (slice t jk.1 jk.2)
      else extract_section_go t name ps
    | none => extract_section_go t name ps

def extract_section (t : List Char) (pats : List Pat) (name : String) : List Char :=
  extract_section_go t name pats

/-! ### `_extract_list_items` (lines 129-160) -/

/-- Lines 141-145: the first pattern with a non-empty `findall` result wins
(`break`); later patterns are not tried. -/
def firstFound : List Pat → List Char → List (List Char)
  | [], _ => []
  | p :: ps, t =>
    let ms := findall p t
    if ms.isEmpty then firstFound ps t else ms

/-- `re.sub(r'^[-\d\.\s]+', '', line)` (line 154): the anchored pattern can match
only once, removing the maximal leading run of the class. -/
def stripListMarks (l : List Char) : List Char :=
  l.dropWhile (fun c => c == '-' || c.isDigit || c == '.' || isPySpace c)

/-- The fallback of lines 148-156: split on newlines, keep stripped lines longer
than 5 characters, remove leading list markers, keep what is non-empty. -/
def fallback_lines (t : List Char) : List (List Char) :=
  (splitNl t).foldl (fun acc line =>
    let line := pyStrip line
    if line ≠ [] ∧ line.length > 5 then
      let line2 := stripListMarks line
      if line2 ≠ [] then acc ++ [line2] else acc
    else acc) []

/-- `list(dict.fromkeys(items))` (line 159): deduplicate keeping first occurrences. -/
def dedupKeep (seen : List (List Char)) : List (List Char) → List (List Char)
  | [] => []
  | x :: xs => if seen.contains x then dedupKeep seen xs else x :: dedupKeep (x :: seen) xs

/-- `_extract_list_items` (lines 129-160). -/
def extract_list_items (t : List Char) : List String :=
  let matched := firstFound list_patterns t
  let items := (matched.map pyStrip).filter (fun m => m ≠ [])
  let items := if items.isEmpty then fallback_lines t else items
  ((dedupKeep [] items).take 10).map List.asString

/-! ### `parse_research_response` (lines 48-79), `_get_empty_result` (lines 162-171),
`validate_parsed_data` (lines 173-187) -/

/-- A value of the result dict: either a string or a list of strings. -/
inductive Value where
  | str : String → Value
  | lst : List String → Value
deriving DecidableEq

/-- Python truthiness of a dict value. -/
def Value.truthy : Value → Bool
  | .str s => !(s == "")
  | .lst l => !l.isEmpty

/-- Python `len` on a dict value. -/
def pyLen : Value → Nat
  | .str s => s.length
  | .lst l => l.length

/-- Python dicts (insertion-ordered) as association lists. -/
abbrev PyDict := List (String × Value)

/-- `d.get(key)`. -/
def dictGet? {α : Type} : List (String × α) → String → Option α
  | [], _ => none
  | (k, v) :: rest, key => if k = key then some v else dictGet? rest key

/-- `d[key] = v`: update in place if present (keeping insertion order), else append. -/
def dictSet {α : Type} : List (String × α) → String → α → List (String × α)
  | [], key, v => [(key, v)]
  | (k, w) :: rest, key, v =>
    if k = key then (k, v) :: rest else (k, w) :: dictSet rest key v

/-- `list(d.keys())`. -/
def dictKeys {α : Type} (d : List (String × α)) : List String := d.map Prod.fst

/-- `_get_empty_result` (lines 162-171). -/
def get_empty_result : PyDict :=
  [("summary", .str ""), ("market_analysis", .str ""), ("technical_details", .str ""),
   ("business_opportunities", .str ""), ("key_players", .lst []), ("trends", .lst [])]

/-- The extraction loop of lines 60-69: `parsed_data[name] = _extract_section(...)`
for each entry of the pattern table, starting from an empty dict. -/
def extract_loop (tbl : List (String × List Pat)) (cleaned : List Char) : PyDict :=
  tbl.foldl (fun d np => dictSet d np.1 (.str (extract_section cleaned np.2 np.1).asString)) []

/-- Lines 71-77: `if parsed_data.get(key): parsed_data[key] = _extract_list_items(...)`.
At this point the value under `key` is always the string produced by
`_extract_section`; the wildcard branch (missing key or non-string) is unreachable
when called from `parse_research_response`. -/
def listify_field (d : PyDict) (key : String) : PyDict :=
  match dictGet? d key with
  | some (.str s) => if s ≠ "" then dictSet d key (.lst (extract_list_items s.data)) else d
  | _ => d

/-- `parse_research_response` (lines 48-79), parameterized by the instance's
pattern table (`self.section_patterns`). -/
def parse_research_response_tbl (tbl : List (String × List Pat)) (response : String) : PyDict :=
  if response = "" ∨ pyStrip response.data = [] then get_empty_result
  else
    listify_field (listify_field (extract_loop tbl (clean_response response.data)) "key_players")
      "trends"

/-- `ResponseParser().parse_research_response(response)` with the table built by
`__init__` (lines 13-46). -/
def parse_research_response (response : String) : PyDict :=
  parse_research_response_tbl section_patterns response

/-- The `ResponseParser` object: its only attribute is `self.section_patterns`,
assigned once in `__init__` and never mutated. -/
structure ResponseParser where
  section_patterns : List (String × List Pat)

/-- `ResponseParser.__init__` (lines 13-46). -/
def mkResponseParser : ResponseParser := ⟨section_patterns⟩

/-- The method call, returning the result together with the (unchanged) object
state, making any mutation of `self` observable in the model. -/
def ResponseParser.parse (self : ResponseParser) (response : String) :
    PyDict × ResponseParser :=
  (parse_research_response_tbl self.section_patterns response, self)

/-- `required_sections` (line 177). -/
def required_sections : List String :=
  ["summary", "market_analysis", "technical_details", "business_opportunities"]

/-- `validate_parsed_data` (lines 173-187): for the four required sections,
`bool(content and len(content) > 50)` with `content = data.get(section, '')`;
for the two optional sections, `bool(data.get(key))`. -/
def validate_parsed_data (data : PyDict) : List (String × Bool) :=
  let validation := required_sections.foldl (fun acc sec =>
    let content := (dictGet? data sec).getD (.str "")
    dictSet acc sec (content.truthy && decide (pyLen content > 50))) []
  let validation := dictSet validation "key_players"
    (((dictGet? data "key_players").map Value.truthy).getD false)
  dictSet validation "trends" (((dictGet? data "trends").map Value.truthy).getD false)

/-! ### Helper lemmas: `pyStrip` -/

theorem dropWhile_idem {α : Type} (p : α → Bool) (l : List α) :
    (l.dropWhile p).dropWhile p = l.dropWhile p := by
  cases h : l.dropWhile p with
  | nil => rfl
  | cons a t =>
    have h0 := List.head?_dropWhile_not p l
    rw [h] at h0
    exact List.dropWhile_cons_of_neg (by simp [show p a = false from h0])

theorem pyStrip_dropWhile (l : List Char) :
    (pyStrip l).dropWhile isPySpace = pyStrip l := by
  have hsplit :
      (l.dropWhile isPySpace).reverse.takeWhile isPySpace ++
        (l.dropWhile isPySpace).reverse.dropWhile isPySpace =
      (l.dropWhile isPySpace).reverse :=
    List.takeWhile_append_dropWhile isPySpace (l.dropWhile isPySpace).reverse
  have hm2 : l.dropWhile isPySpace =
      ((l.dropWhile isPySpace).reverse.dropWhile isPySpace).reverse ++
        ((l.dropWhile isPySpace).reverse.takeWhile isPySpace).reverse := by
    have h2 := congrArg List.reverse hsplit
    rw [List.reverse_append, List.reverse_reverse] at h2
    exact h2.symm
  unfold pyStrip
  cases hd : ((l.dropWhile isPySpace).reverse.dropWhile isPySpace).reverse with
  | nil => rfl
  | cons a t =>
    have hma : (l.dropWhile isPySpace).head? = some a := by rw [hm2, hd]; rfl
    have h0 := List.head?_dropWhile_not isPySpace l
    rw [hma] at h0
    exact List.dropWhile_cons_of_neg (by simp [show isPySpace a = false from h0])

/-- `.strip()` is idempotent: what `_extract_section` returns is already stripped. -/
theorem pyStrip_idem (l : List Char) : pyStrip (pyStrip l) = pyStrip l := by
  have hA := pyStrip_dropWhile l
  show (((pyStrip l).dropWhile isPySpace).reverse.dropWhile isPySpace).reverse = pyStrip l
  rw [hA]
  show ((((l.dropWhile isPySpace).reverse.dropWhile isPySpace).reverse).reverse.dropWhile
    isPySpace).reverse = pyStrip l
  rw [List.reverse_reverse, dropWhile_idem]
  rfl

/-! ### Helper lemmas: dict operations -/

theorem dictGet_dictSet_ne {α : Type} (key k' : String) (v : α) (h : k' ≠ key) :
    ∀ d : List (String × α), dictGet? (dictSet d key v) k' = dictGet? d k'
  | [] => by simp [dictSet, dictGet?, Ne.symm h]
  | (k, w) :: rest => by
    by_cases hk : k = key
    · subst hk
      simp [dictSet, dictGet?, Ne.symm h]
    · simp only [dictSet, if_neg hk]
      by_cases hk' : k = k'
      · simp [dictGet?, hk']
      · simp [dictGet?, hk', dictGet_dictSet_ne key k' v h rest]

theorem dictGet_dictSet_self {α : Type} (key : String) (v : α) :
    ∀ d : List (String × α), dictGet? (dictSet d key v) key = some v
  | [] => by simp [dictSet, dictGet?]
  | (k, w) :: rest => by
    by_cases hk : k = key
    · subst hk; simp [dictSet, dictGet?]
    · simp [dictSet, dictGet?, hk, dictGet_dictSet_self key v rest]

theorem mem_dictKeys_of_get {α : Type} (key : String) (v : α) :
    ∀ d : List (String × α), dictGet? d key = some v → key ∈ dictKeys d
  | [] => by simp [dictGet?]
  | (k, w) :: rest => by
    intro h2
    by_cases hk : k = key
    · subst hk; simp [dictKeys]
    · have h3 : dictGet? rest key = some v := by simpa [dictGet?, hk] using h2
      have ih := mem_dictKeys_of_get key v rest h3
      simp only [dictKeys, List.map_cons] at ih ⊢
      exact List.mem_cons_of_mem _ ih

theorem dictKeys_dictSet_mem {α : Type} (key : String) (v : α) :
    ∀ d : List (String × α), key ∈ dictKeys d → dictKeys (dictSet d key v) = dictKeys d
  | [] => by simp [dictKeys]
  | (k, w) :: rest => by
    intro hmem
    by_cases hk : k = key
    · subst hk; simp [dictSet, dictKeys]
    · have hrest : key ∈ dictKeys rest := by
        rcases (by simpa [dictKeys] using hmem : key = k ∨ key ∈ dictKeys rest) with h | h
        · exact absurd h.symm hk
        · exact h
      have ih := dictKeys_dictSet_mem key v rest hrest
      simp only [dictKeys] at ih
      simp [dictSet, dictKeys, hk, ih]

/-! ### Helper lemmas: `listify_field`, `extract_loop`, and the extraction invariant -/

theorem dictGet_listify_ne (d : PyDict) (key k' : String) (h : k' ≠ key) :
    dictGet? (listify_field d key) k' = dictGet? d k' := by
  unfold listify_field
  cases hv : dictGet? d key with
  | none => rfl
  | some v =>
    cases v with
    | str s =>
      by_cases hs : s = ""
      · simp [hs]
      · simp [hs, dictGet_dictSet_ne key k' _ h d]
    | lst l => rfl

theorem dictKeys_listify (d : PyDict) (key : String) :
    dictKeys (listify_field d key) = dictKeys d := by
  unfold listify_field
  cases hv : dictGet? d key with
  | none => rfl
  | some v =>
    cases v with
    | str s =>
      by_cases hs : s = ""
      · simp [hs]
      · simp [hs, dictKeys_dictSet_mem key _ d (mem_dictKeys_of_get key _ d hv)]
    | lst l => rfl

/-- Whatever `_extract_by_header` returns is `""` or a stripped string longer
than 10 characters. -/
theorem extract_by_header_go_inv (t : List Char) :
    ∀ hs : List String,
      extract_by_header_go t hs = [] ∨
        (10 < (extract_by_header_go t hs).length ∧
          pyStrip (extract_by_header_go t hs) = extract_by_header_go t hs)
  | [] => Or.inl rfl
  | h :: hs => by
    unfold extract_by_header_go
    cases hsp : searchPat (headerPat h) t with
    | none => exact extract_by_header_go_inv t hs
    | some jk =>
      dsimp only
      by_cases hc : pyStrip (slice t jk.1 jk.2) ≠ [] ∧ 10 < (pyStrip (slice t jk.1 jk.2)).length
      · rw [if_pos hc]
        exact Or.inr ⟨hc.2, pyStrip_idem _⟩
      · rw [if_neg hc]
        exact extract_by_header_go_inv t hs

/-- Whatever `_extract_section` returns is `""` or a stripped string longer
than 10 characters. -/
theorem extract_section_go_inv (t : List Char) (name : String) :
    ∀ ps : List Pat,
      extract_section_go t name ps = [] ∨
        (10 < (extract_section_go t name ps).length ∧
          pyStrip (extract_section_go t name ps) = extract_section_go t name ps)
  | [] => extract_by_header_go_inv t (headersFor name)
  | p :: ps => by
    unfold extract_section_go
    cases hsp : searchPat p t with
    | none => exact extract_section_go_inv t name ps
    | some jk =>
      dsimp only
      by_cases hc : pyStrip (slice t jk.1 jk.2) ≠ [] ∧ 10 < (pyStrip (slice t jk.1 jk.2)).length
      · rw [if_pos hc]
        exact Or.inr ⟨hc.2, pyStrip_idem _⟩
      · rw [if_neg hc]
        exact extract_section_go_inv t name ps

theorem extract_section_inv (t : List Char) (pats : List Pat) (name : String) :
    extract_section t pats name = [] ∨
      (10 < (extract_section t pats name).length ∧
        pyStrip (extract_section t pats name) = extract_section t pats name) :=
  extract_section_go_inv t name pats

/-- The keys of the parsed record, for every input. -/
theorem parse_keys (s : String) :
    dictKeys (parse_research_response s) =
      ["summary", "market_analysis", "technical_details", "business_opportunities",
       "key_players", "trends"] := by
  unfold parse_research_response parse_research_response_tbl
  split
  · rfl
  · rw [dictKeys_listify, dictKeys_listify]
    rfl

/-- Each required string field of the parsed record is the (stringified) output of
`_extract_section` on the cleaned input, and hence empty or stripped and longer
than 10 characters. -/
theorem parse_field_spec (s : String) (name : String) (pats : List Pat)
    (h1 : name ≠ "key_players") (h2 : name ≠ "trends")
    (hget : dictGet? (extract_loop section_patterns (clean_response s.data)) name =
      some (.str (extract_section (clean_response s.data) pats name).asString))
    (hemp : dictGet? get_empty_result name = some (.str "")) :
    ∃ v : String, dictGet? (parse_research_response s) name = some (.str v) ∧
      (v = "" ∨ (10 < v.length ∧ pyStrip v.data = v.data)) := by
  unfold parse_research_response parse_research_response_tbl
  split
  · exact ⟨"", hemp, Or.inl rfl⟩
  · rw [dictGet_listify_ne _ _ _ h2, dictGet_listify_ne _ _ _ h1, hget]
    rcases extract_section_inv (clean_response s.data) pats name with hnil | ⟨hlen, hstr⟩
    · refine ⟨_, rfl, Or.inl ?_⟩
      rw [hnil]
      rfl
    · exact ⟨_, rfl, Or.inr ⟨hlen, hstr⟩⟩

/-- Characterization of `validate_parsed_data` on a fully-populated record with
string values for the four required sections and list values for the two
optional ones. -/
theorem validate_on_record (v1 v2 v3 v4 : String) (l1 l2 : List String) :
    validate_parsed_data
      [("summary", .str v1), ("market_analysis", .str v2), ("technical_details", .str v3),
       ("business_opportunities", .str v4), ("key_players", .lst l1), ("trends", .lst l2)] =
    [("summary", !(v1 == "") && decide (50 < v1.length)),
     ("market_analysis", !(v2 == "") && decide (50 < v2.length)),
     ("technical_details", !(v3 == "") && decide (50 < v3.length)),
     ("business_opportunities", !(v4 == "") && decide (50 < v4.length)),
     ("key_players", !l1.isEmpty), ("trends", !l2.isEmpty)] := rfl

/-! ### The claims -/

/-- C1: the claim states that when section extraction fails for `key_players` or
`trends` the field's value is the empty sequence `[]`.  The code instead leaves
the empty string: on input `"hello"` (which matches no header) both fields come
out as the string `""`, which is not any list value.  (The repository's own
`data_models.py` declares these fields as `List[str]`, so the claim reflects the
code's intent and the code is the slip.) -/
theorem claim_C1_failure_leaves_string :
    dictGet? (parse_research_response "hello") "key_players" = some (.str "") ∧
    dictGet? (parse_research_response "hello") "trends" = some (.str "") ∧
    (∀ l : List String, Value.str "" ≠ Value.lst l) :=
  ⟨by decide, by decide, fun _ h => Value.noConfusion h⟩

/-- C2 counterexample: the claim states a captured, trimmed section body of
exactly 10 characters is accepted.  On `"## EXECUTIVE SUMMARY\nabcdefghij"` the
second summary matcher captures exactly the 10 trimmed characters
`"abcdefghij"`, yet `_extract_section` rejects it (the code requires length
strictly greater than 10) and, every other strategy failing, returns `""`. -/
theorem claim_C2_counterexample :
    searchPat (secPat (.seq (optNum "##") (hdrColNl "EXECUTIVE SUMMARY")) nlHash)
        "## EXECUTIVE SUMMARY\nabcdefghij".data = some (21, 31) ∧
    (pyStrip (slice "## EXECUTIVE SUMMARY\nabcdefghij".data 21 31)).length = 10 ∧
    extract_section "## EXECUTIVE SUMMARY\nabcdefghij".data summary_patterns "summary" = [] :=
  ⟨by decide, by decide, by decide⟩

/-- C2 (amended): a matcher whose captured, trimmed content is strictly longer
than 10 characters succeeds and its content is returned; content of 10 or fewer
characters (including exactly 10) causes the extractor to fall through to the
next strategy. -/
theorem claim_C2_amended (t : List Char) (name : String) (p : Pat) (ps : List Pat)
    (jk : Nat × Nat) (h : searchPat p t = some jk) :
    (10 < (pyStrip (slice t jk.1 jk.2)).length →
      extract_section t (p :: ps) name = pyStrip (slice t jk.1 jk.2)) ∧
    ((pyStrip (slice t jk.1 jk.2)).length ≤ 10 →
      extract_section t (p :: ps) name = extract_section t ps name) := by
  constructor
  · intro hl
    show extract_section_go t name (p :: ps) = pyStrip (slice t jk.1 jk.2)
    rw [extract_section_go, h]
    dsimp only
    rw [if_pos ⟨fun hn => by rw [hn] at hl; simp at hl, hl⟩]
  · intro hl
    show extract_section_go t name (p :: ps) = extract_section_go t name ps
    rw [extract_section_go, h]
    dsimp only
    rw [if_neg (fun hc => absurd hc.2 (by omega))]

/-- Witness for C2 (amended): on `"## EXECUTIVE SUMMARY\nabcdefghijk"` the same
matcher captures the 11 trimmed characters `"abcdefghijk"`, and the extractor
accepts and returns them. -/
theorem claim_C2_amended_witness :
    searchPat (secPat (.seq (optNum "##") (hdrColNl "EXECUTIVE SUMMARY")) nlHash)
        "## EXECUTIVE SUMMARY\nabcdefghijk".data = some (21, 32) ∧
    extract_section "## EXECUTIVE SUMMARY\nabcdefghijk".data
        [secPat (.seq (optNum "##") (hdrColNl "EXECUTIVE SUMMARY")) nlHash] "summary" =
      "abcdefghijk".data := by
  have h : searchPat (secPat (.seq (optNum "##") (hdrColNl "EXECUTIVE SUMMARY")) nlHash)
      "## EXECUTIVE SUMMARY\nabcdefghijk".data = some (21, 32) := by decide
  refine ⟨h, ?_⟩
  have h2 := (claim_C2_amended "## EXECUTIVE SUMMARY\nabcdefghijk".data "summary"
      (secPat (.seq (optNum "##") (hdrColNl "EXECUTIVE SUMMARY")) nlHash) [] (21, 32) h).1
      (by decide)
  rw [h2]
  decide

/-- C3: the three inputs `"1. EXECUTIVE SUMMARY\nFoo bar baz qux quux."`,
`"## EXECUTIVE SUMMARY\nFoo bar baz qux quux."` and
`"EXECUTIVE SUMMARY:\nFoo bar baz qux quux."` all yield the identical summary
value `"Foo bar baz qux quux."` from `parse_research_response`. -/
theorem claim_C3_header_tolerance :
    dictGet? (parse_research_response "1. EXECUTIVE SUMMARY\nFoo bar baz qux quux.") "summary" =
      some (.str "Foo bar baz qux quux.") ∧
    dictGet? (parse_research_response "## EXECUTIVE SUMMARY\nFoo bar baz qux quux.") "summary" =
      some (.str "Foo bar baz qux quux.") ∧
    dictGet? (parse_research_response "EXECUTIVE SUMMARY:\nFoo bar baz qux quux.") "summary" =
      some (.str "Foo bar baz qux quux.") :=
  ⟨by decide, by decide, by decide⟩

/-- C4: for every input string, `parse_research_response` returns a mapping with
exactly the six keys `summary`, `market_analysis`, `technical_details`,
`business_opportunities`, `key_players`, `trends`, in this order — no key is
missing and no extra key appears. -/
theorem claim_C4_closed_keys : ∀ s : String,
    dictKeys (parse_research_response s) =
      ["summary", "market_analysis", "technical_details", "business_opportunities",
       "key_players", "trends"] :=
  parse_keys

/-- C5: empty and whitespace-only input both give the record with all four
string fields `""` and both list fields `[]`. -/
theorem claim_C5_empty_input :
    parse_research_response "" =
      [("summary", .str ""), ("market_analysis", .str ""), ("technical_details", .str ""),
       ("business_opportunities", .str ""), ("key_players", .lst []), ("trends", .lst [])] ∧
    parse_research_response "   " =
      [("summary", .str ""), ("market_analysis", .str ""), ("technical_details", .str ""),
       ("business_opportunities", .str ""), ("key_players", .lst []), ("trends", .lst [])] :=
  ⟨by decide, by decide⟩

/-- C6: `_extract_list_items` deduplicates preserving first-seen order
(`"- Alpha\n- Beta\n- Alpha"` gives `["Alpha", "Beta"]`) and truncates 15
distinct bullet items to exactly the first 10. -/
theorem claim_C6_dedup_truncate :
    extract_list_items "- Alpha\n- Beta\n- Alpha".data = ["Alpha", "Beta"] ∧
    extract_list_items
        ("- Item01\n- Item02\n- Item03\n- Item04\n- Item05\n- Item06\n- Item07\n- Item08" ++
          "\n- Item09\n- Item10\n- Item11\n- Item12\n- Item13\n- Item14\n- Item15").data =
      ["Item01", "Item02", "Item03", "Item04", "Item05",
       "Item06", "Item07", "Item08", "Item09", "Item10"] :=
  ⟨by decide, by decide⟩

/-- C7: `validate_parsed_data` marks each of the four string fields true iff its
value is non-empty of length strictly greater than 50 (51 characters validate,
50 do not), and marks each list field true iff its value is non-empty. -/
theorem claim_C7_validation_thresholds :
    (∀ v1 v2 v3 v4 : String, ∀ l1 l2 : List String,
      (dictGet? (validate_parsed_data
          [("summary", .str v1), ("market_analysis", .str v2), ("technical_details", .str v3),
           ("business_opportunities", .str v4), ("key_players", .lst l1), ("trends", .lst l2)])
          "summary" = some true ↔ v1 ≠ "" ∧ 50 < v1.length) ∧
      (dictGet? (validate_parsed_data
          [("summary", .str v1), ("market_analysis", .str v2), ("technical_details", .str v3),
           ("business_opportunities", .str v4), ("key_players", .lst l1), ("trends", .lst l2)])
          "market_analysis" = some true ↔ v2 ≠ "" ∧ 50 < v2.length) ∧
      (dictGet? (validate_parsed_data
          [("summary", .str v1), ("market_analysis", .str v2), ("technical_details", .str v3),
           ("business_opportunities", .str v4), ("key_players", .lst l1), ("trends", .lst l2)])
          "technical_details" = some true ↔ v3 ≠ "" ∧ 50 < v3.length) ∧
      (dictGet? (validate_parsed_data
          [("summary", .str v1), ("market_analysis", .str v2), ("technical_details", .str v3),
           ("business_opportunities", .str v4), ("key_players", .lst l1), ("trends", .lst l2)])
          "business_opportunities" = some true ↔ v4 ≠ "" ∧ 50 < v4.length) ∧
      (dictGet? (validate_parsed_data
          [("summary", .str v1), ("market_analysis", .str v2), ("technical_details", .str v3),
           ("business_opportunities", .str v4), ("key_players", .lst l1), ("trends", .lst l2)])
          "key_players" = some true ↔ l1 ≠ []) ∧
      (dictGet? (validate_parsed_data
          [("summary", .str v1), ("market_analysis", .str v2), ("technical_details", .str v3),
           ("business_opportunities", .str v4), ("key_players", .lst l1), ("trends", .lst l2)])
          "trends" = some true ↔ l2 ≠ [])) ∧
    dictGet? (validate_parsed_data [("summary", .str (String.mk (List.replicate 51 'a')))])
      "summary" = some true ∧
    dictGet? (validate_parsed_data [("summary", .str (String.mk (List.replicate 50 'a')))])
      "summary" = some false := by
  refine ⟨?_, by decide, by decide⟩
  intro v1 v2 v3 v4 l1 l2
  rw [validate_on_record]
  refine ⟨?_, ?_, ?_, ?_, ?_, ?_⟩ <;> simp [dictGet?]

/-- C8: `parse_research_response` is total on strings — for every input, also
non-ASCII or arbitrarily malformed, it returns a record carrying all six
fields (the embedding is a total function; no exceptional exit exists). -/
theorem claim_C8_total : ∀ s : String,
    ∃ r : PyDict, parse_research_response s = r ∧
      dictKeys r = ["summary", "market_analysis", "technical_details",
        "business_opportunities", "key_players", "trends"] :=
  fun s => ⟨parse_research_response s, rfl, parse_keys s⟩

/-- C9: parsing is deterministic and stateless — a call leaves the parser
object unchanged, a repeated call on the same instance returns an equal record,
and the instance built by `__init__` computes exactly
`parse_research_response`. -/
theorem claim_C9_stateless : ∀ (rp : ResponseParser) (s : String),
    (rp.parse s).2 = rp ∧
    (rp.parse s).1 = ((rp.parse s).2.parse s).1 ∧
    (mkResponseParser.parse s).1 = parse_research_response s :=
  fun _ _ => ⟨rfl, rfl, rfl⟩

/-- C10: for every input, each of the four string fields of the parsed record
is either `""` or a trimmed string of length strictly greater than 10 — never a
non-empty value of at most 10 characters, never with leading or trailing
whitespace. -/
theorem claim_C10_trimmed_fields : ∀ s : String,
    (∃ v : String, dictGet? (parse_research_response s) "summary" = some (.str v) ∧
      (v = "" ∨ (10 < v.length ∧ pyStrip v.data = v.data))) ∧
    (∃ v : String, dictGet? (parse_research_response s) "market_analysis" = some (.str v) ∧
      (v = "" ∨ (10 < v.length ∧ pyStrip v.data = v.data))) ∧
    (∃ v : String, dictGet? (parse_research_response s) "technical_details" = some (.str v) ∧
      (v = "" ∨ (10 < v.length ∧ pyStrip v.data = v.data))) ∧
    (∃ v : String, dictGet? (parse_research_response s) "business_opportunities" =
        some (.str v) ∧ (v = "" ∨ (10 < v.length ∧ pyStrip v.data = v.data))) :=
  fun s =>
    ⟨parse_field_spec s "summary" summary_patterns (by decide) (by decide) rfl rfl,
     parse_field_spec s "market_analysis" market_analysis_patterns (by decide) (by decide)
       rfl rfl,
     parse_field_spec s "technical_details" technical_details_patterns (by decide) (by decide)
       rfl rfl,
     parse_field_spec s "business_opportunities" business_opportunities_patterns (by decide)
       (by decide) rfl rfl⟩

end ResponseParserModel
